import Mathlib

/-!
Verification of the HuaAgent medical QA pipeline against its specification.

The development shallowly embeds the row-to-record converters of
`src/4_rag/2c_rag_excel.py` (corpus builder) and
`src/run/process_data/excel2QAjson.py` (QA-JSON extractor), the batch
pipelines of `src/run/basellm.py` and `src/run/rag.py`, the corpus
builder's idempotence branch, and a spec-modelled text splitter.
Spreadsheet cells are `Option`-valued (`none` models a NaN cell); the
external generation capability is an oracle `String → Except String String`
(`Except.error` models a raised exception whose message is the string).
-/

set_option autoImplicit false
set_option maxRecDepth 100000

namespace HuaAgent

/-- Characters of a string with leading and trailing whitespace removed. -/
def stripChars (cs : List Char) : List Char :=
  (cs.dropWhile Char.isWhitespace).rdropWhile Char.isWhitespace

/-- Python's `str.strip()`: the string with leading and trailing
whitespace removed.  Defined structurally over the character list so
that it evaluates on concrete inputs. -/
def strip (s : String) : String :=
  String.mk (stripChars s.data)

/-- The correction-override policy as worded in the spec (section 4.1):
use the corrected answer exactly when `status == 1` and the corrected
answer is non-empty after stripping, otherwise the original answer.
This definition follows the spec's words and serves as the reference
the converters are compared against. -/
def overridePolicySpec (status : Int) (corrected answer : String) : String :=
  if status = 1 ∧ strip corrected ≠ "" then strip corrected else strip answer

/-- One spreadsheet row as seen by both row-to-record converters, after
column-role resolution: the question, answer, status and corrected-answer
cells.  `none` models a NaN (missing) cell; status cells are integers. -/
structure Row where
  question : Option String
  answer : Option String
  status : Option Int
  corrected : Option String
deriving DecidableEq

namespace RagExcel

/-- Metadata attached to each `Document` in `src/4_rag/2c_rag_excel.py`
(lines 63-73): source name is a constant and is omitted here. -/
structure DocMeta where
  row_index : Nat
  question : String
  answer : String
  status : Int
  has_correction : Bool
deriving DecidableEq

/-- A langchain `Document` as built by the corpus builder loop. -/
structure Document where
  page_content : String
  metadata : DocMeta
deriving DecidableEq

/-- Positional column-role resolution of the corpus builder
(`src/4_rag/2c_rag_excel.py` lines 33-36): `df.columns[0]`, `[1]`, `[2]`
are accessed unconditionally (an out-of-range access raises and is
re-wrapped at line 41), and `df.columns[3]` is taken only when more than
3 columns exist. -/
def resolveColumns (cols : List String) :
    Except String (String × String × String × Option String) :=
  match cols with
  | q :: a :: s :: rest => Except.ok (q, a, s, rest.head?)
  | _ => Except.error "Error reading Excel file: index out of bounds"

/-- Body of the corpus builder's row loop (`src/4_rag/2c_rag_excel.py`
lines 46-74) for one row: read cells with NaN defaults, skip the row when
the trimmed question or the trimmed original answer is empty, apply the
correction override (`status == 1` and non-empty trimmed corrected
answer), and build the `Document`.  `hasCorrectedCol` is whether a fourth
column was resolved (`corrected_col` not `None`). -/
def buildDocument (hasCorrectedCol : Bool) (index : Nat) (r : Row) :
    Option Document :=
  let question := r.question.getD ""
  let answer := r.answer.getD ""
  let status := r.status.getD 0
  let corrected_answer :=
    if hasCorrectedCol then r.corrected.getD "" else ""
  if strip question = "" ∨ strip answer = "" then none
  else
    let final_answer :=
      if status = 1 ∧ strip corrected_answer ≠ "" then corrected_answer
      else answer
    some
      { page_content := "Q: " ++ strip question ++ "\nA: " ++ strip final_answer
        metadata :=
          { row_index := index
            question := strip question
            answer := strip final_answer
            status := status
            has_correction :=
              if corrected_answer = "" then false
              else strip corrected_answer ≠ "" } }

/-- The corpus builder's whole row loop: `for index, row in df.iterrows()`
with the dataframe's positional index. -/
def buildDocuments (hasCorrectedCol : Bool) (rows : List Row) :
    List Document :=
  rows.enum.filterMap fun p => buildDocument hasCorrectedCol p.1 p.2

end RagExcel

namespace Excel2QAjson

/-- Metadata of one extracted QA pair
(`src/run/process_data/excel2QAjson.py` lines 113-119); the constant
source name is omitted. -/
structure QAPairMeta where
  row_index : Nat
  question_length : Nat
  answer_length : Nat
  used_corrected_answer : Bool
deriving DecidableEq

/-- One QA pair of the intermediate JSON dataset (lines 109-120). -/
structure QAPairJson where
  id : Nat
  question : String
  answer : String
  metadata : QAPairMeta
deriving DecidableEq

/-- The extractor's fallback column resolution
(`src/run/process_data/excel2QAjson.py` lines 73-80): when no named
question/answer columns are found, the first two columns are used,
and the extractor gives up (returns no pairs) when fewer than 2 columns
exist. -/
def fallbackColumns (cols : List String) : Option (String × String) :=
  match cols with
  | q :: a :: _ => some (q, a)
  | _ => none

/-- The answer value after the corrected-answer replacement of lines
94-103: when a corrected-answer column was resolved and its cell is not
NaN, its stripped value replaces the answer whenever it is non-empty (no
status check is performed). -/
def effective_answer (hasCorrectedCol : Bool) (r : Row) : String :=
  match (if hasCorrectedCol then r.corrected else none) with
  | some c => if strip c ≠ "" then strip c else r.answer.getD ""
  | none => r.answer.getD ""

/-- Whether the row's answer was replaced by the corrected value
(`used_corrected` in the source loop). -/
def corrected_used (hasCorrectedCol : Bool) (r : Row) : Bool :=
  match (if hasCorrectedCol then r.corrected else none) with
  | some c => strip c ≠ ""
  | none => false

/-- Body of `QAExcelProcessor.extract_qa_pairs`'s row loop (lines 90-121)
for one row: read the question/answer cells with NaN defaults, apply the
corrected-answer replacement, and skip the row only when the stripped
question AND the stripped (possibly replaced) answer are both empty. -/
def extract_qa_pair (hasCorrectedCol : Bool) (index : Nat) (r : Row) :
    Option QAPairJson :=
  let question := r.question.getD ""
  let answer := effective_answer hasCorrectedCol r
  if strip question = "" ∧ strip answer = "" then none
  else
    some
      { id := index + 1
        question := strip question
        answer := strip answer
        metadata :=
          { row_index := index + 1
            question_length := (strip question).length
            answer_length := (strip answer).length
            used_corrected_answer := corrected_used hasCorrectedCol r } }

/-- The extractor's whole row loop over the loaded dataframe. -/
def extract_qa_pairs (hasCorrectedCol : Bool) (rows : List Row) :
    List QAPairJson :=
  rows.enum.filterMap fun p => extract_qa_pair hasCorrectedCol p.1 p.2

/-- `QAExcelProcessor.load_excel_data` (lines 25-42): reads the
spreadsheet with `nrows=max_rows`, keeping only the first `max_rows`
rows. -/
def load_excel_data (rows : List Row) (max_rows : Nat) : List Row :=
  rows.take max_rows

end Excel2QAjson

/-- A QA pair as loaded from the intermediate JSON dataset by the batch
pipelines (`qa_pair["question"]` and `qa_pair["answer"]`). -/
structure QAPair where
  question : String
  answer : String
deriving DecidableEq

/-- One line of the batch output log (`src/run/basellm.py` lines 100-104
and `src/run/rag.py` lines 145-149). -/
structure JsonRecord where
  user_input : String
  response : String
  retrieved_contexts : String
deriving DecidableEq

namespace Basellm

/-- `get_llm_response` (`src/run/basellm.py` lines 68-88): the generation
capability is the oracle `gen`; an exception from the chain is caught and
turned into the string `"Error: " ++ e`. -/
def get_llm_response (gen : String → Except String String) (q : String) :
    String :=
  match gen q with
  | Except.ok a => a
  | Except.error e => "Error: " ++ e

/-- `process_single_question` (lines 90-111), restricted to the output
record it builds: `user_input` is the question, `response` the value of
`get_llm_response`, and `retrieved_contexts` the ground-truth answer of
the pair. -/
def process_single_question (gen : String → Except String String)
    (qa_pair : QAPair) : JsonRecord :=
  { user_input := qa_pair.question
    response := get_llm_response gen qa_pair.question
    retrieved_contexts := qa_pair.answer }

/-- The record written by the `except` branch of `process_all_questions`
(lines 153-162).  At that point the loop variable `qa_pair` of the
submission loop still holds the LAST submitted pair, so the error record
is built from the last pair, not from the failed item's pair. -/
def errorRecord (qa_pairs : List QAPair) (e : String) : JsonRecord :=
  let qa_pair := qa_pairs.getLastD { question := "", answer := "" }
  { user_input := qa_pair.question
    response := "Error: " ++ e
    retrieved_contexts := qa_pair.answer }

/-- `process_all_questions` (lines 113-166) as the list of JSONL records
it writes, in the order they are written (the futures list is walked in
submission order).  `taskErr i = some e` models `future.result()` raising
an exception with message `e` for item `i`; `taskErr i = none` models the
item's task returning normally, in which case the written record is the
one `process_single_question` built.  With no pairs the function returns
before opening the output file. -/
def process_all_questions (gen : String → Except String String)
    (taskErr : Nat → Option String) (qa_pairs : List QAPair) :
    List JsonRecord :=
  if qa_pairs.isEmpty then []
  else
    qa_pairs.enum.map fun p =>
      match taskErr p.1 with
      | none => process_single_question gen p.2
      | some e => errorRecord qa_pairs e

end Basellm

namespace Rag

/-- `process_qa_pairs` (`src/run/rag.py` lines 116-171) as the list of
JSONL records it appends to the output file.  `ragGen` is the oracle for
`rag_chain.invoke` returning the generated answer (`Except.error` models
a raised exception with the given message).  On success the record pairs
the question with the generated answer; on failure the `except` branch
(lines 159-168) still writes a record for the same pair, with response
`"处理出错: " ++ e`.  In both branches `retrieved_contexts` is the
pair's ground-truth answer, not the retrieved chunks. -/
def process_qa_pairs (ragGen : String → Except String String)
    (qa_pairs : List QAPair) : List JsonRecord :=
  qa_pairs.map fun qa_pair =>
    match ragGen qa_pair.question with
    | Except.ok ans =>
        { user_input := qa_pair.question
          response := ans
          retrieved_contexts := qa_pair.answer }
    | Except.error e =>
        { user_input := qa_pair.question
          response := "处理出错: " ++ e
          retrieved_contexts := qa_pair.answer }

end Rag

namespace RagExcel

/-- The observable actions of one run of `src/4_rag/2c_rag_excel.py`. -/
inductive BuildStep where
  | readExcel
  | chunkDocuments
  | storeWrite
  | reportAlreadyBuilt
deriving DecidableEq

/-- One run of the corpus-builder script over an abstract file system
state (`dirExists` is whether the persistent directory exists, checked at
line 14): when it exists, the script only prints "Vector store already
exists" (lines 121-122); otherwise it reads the spreadsheet, chunks the
documents and writes the store.  That `Chroma.from_documents` with
`persist_directory` leaves the directory existing is Modelled from the
spec: the persisted corpus is "a named, file-system-backed vector index"
created by the store write (the store implementation is third-party code
absent from the repository). -/
def run_builder (dirExists : Bool) : List BuildStep × Bool :=
  if dirExists then ([BuildStep.reportAlreadyBuilt], true)
  else ([BuildStep.readExcel, BuildStep.chunkDocuments, BuildStep.storeWrite],
        true)

/-- Number of store-building runs in a list of steps. -/
def countBuilds (steps : List BuildStep) : Nat :=
  steps.count BuildStep.storeWrite

/-- Configured chunk size of the text splitter
(`src/4_rag/2c_rag_excel.py` line 80). -/
def chunk_size : Nat := 500

/-- Configured chunk overlap of the text splitter (line 81). -/
def chunk_overlap : Nat := 50

/-- Fuel-indexed worker for the window splitter: a text that fits in
`size` characters is emitted whole; otherwise the first `size` characters
are emitted and splitting resumes `step` characters further, so that
consecutive windows share the final `size - step` characters.  The fuel
only forces termination; it is always called with fuel at least the text
length, which suffices since each round drops `step ≥ 1` characters. -/
def splitWindowsAux (size step : Nat) : Nat → List Char → List (List Char)
  | 0, cs => [cs]
  | fuel + 1, cs =>
      if cs.length ≤ size then [cs]
      else cs.take size :: splitWindowsAux size step fuel (cs.drop step)

/-- Window splitter over a character list with stride `step`. -/
def splitWindows (size step : Nat) (cs : List Char) : List (List Char) :=
  splitWindowsAux size step cs.length cs

/-- Modelled from the spec: the splitting algorithm itself
(`RecursiveCharacterTextSplitter`, configured at
`src/4_rag/2c_rag_excel.py` lines 79-86) is third-party langchain code
absent from this repository; only its configuration is in the source.
Per the spec, every emitted chunk is at most `chunk_size` characters,
consecutive chunks of one record share `chunk_overlap` characters, and
the configured separator list ends with the empty separator (character
boundary), so every position is an admissible split point of last
resort.  The model therefore emits fixed-stride character windows of
width `chunk_size` and stride `chunk_size - chunk_overlap`. -/
def split_text (text : String) : List String :=
  (splitWindows chunk_size (chunk_size - chunk_overlap) text.data).map
    fun cs => String.mk cs

/-- The formatted text of one retained QA record
(`src/4_rag/2c_rag_excel.py` line 60). -/
def qa_content (question final_answer : String) : String :=
  "Q: " ++ strip question ++ "\nA: " ++ strip final_answer

end RagExcel

/-- A concrete 611-character formatted record used to exercise the
splitter on an input that needs more than one chunk. -/
def c9text : String :=
  RagExcel.qa_content (String.mk (List.replicate 600 'x')) "ans"

/-- First window of `c9text` under the configured splitter. -/
def c9chunk1 : String := String.mk (c9text.data.take 500)

/-- Second window of `c9text` under the configured splitter. -/
def c9chunk2 : String := String.mk (c9text.data.drop 450)

/-! Helper lemmas. -/

theorem stripChars_idem (cs : List Char) :
    stripChars (stripChars cs) = stripChars cs := by
  unfold stripChars
  have hpre : (cs.dropWhile Char.isWhitespace).rdropWhile Char.isWhitespace
      <+: cs.dropWhile Char.isWhitespace :=
    List.rdropWhile_prefix _ _
  have h1 : ((cs.dropWhile Char.isWhitespace).rdropWhile
        Char.isWhitespace).dropWhile Char.isWhitespace
      = (cs.dropWhile Char.isWhitespace).rdropWhile Char.isWhitespace := by
    rw [List.dropWhile_eq_self_iff]
    intro hl
    have h2 : (cs.dropWhile Char.isWhitespace).dropWhile Char.isWhitespace
        = cs.dropWhile Char.isWhitespace :=
      List.dropWhile_idempotent _ _
    rw [List.dropWhile_eq_self_iff] at h2
    have hlen : 0 < (cs.dropWhile Char.isWhitespace).length :=
      lt_of_lt_of_le hl hpre.length_le
    have hget := hpre.getElem hl
    have h3 := h2 hlen
    simp only [List.get_eq_getElem] at h3 ⊢
    rw [hget]
    exact h3
  rw [h1, List.rdropWhile_idempotent]

theorem strip_idem (s : String) : strip (strip s) = strip s :=
  congrArg String.mk (stripChars_idem s.data)

theorem strip_ite (c : Prop) [Decidable c] (x y : String) :
    strip (if c then x else y) = if c then strip x else strip y := by
  split <;> rfl

/-! Claim theorems. -/

/-- Claim C1, counterexample: on a row whose status is 0 and whose
corrected-answer cell holds the non-empty value "c", the QA-JSON
extractor emits the corrected answer "c", although the claim requires
the original answer "a" whenever `status != 1`.  The corpus builder, on
the same row, emits "a": the two converters do not agree. -/
theorem C1_counterexample :
    Excel2QAjson.extract_qa_pairs true
        [{ question := some "q", answer := some "a", status := some 0,
           corrected := some "c" }]
      = [{ id := 1, question := "q", answer := "c",
           metadata := { row_index := 1, question_length := 1,
                         answer_length := 1, used_corrected_answer := true } }]
    ∧ (RagExcel.buildDocuments true
        [{ question := some "q", answer := some "a", status := some 0,
           corrected := some "c" }]).map (fun d => d.metadata.answer) = ["a"]
    ∧ ("c" : String) ≠ "a" := by
  refine ⟨by decide, by decide, by decide⟩

/-- Claim C1 (amended): the corpus builder's emitted answer follows the
spec's correction-override policy (`status == 1` AND non-empty stripped
corrected answer); the QA-JSON extractor instead uses the corrected
answer whenever its cell is present and non-empty after stripping,
ignoring the status entirely. -/
theorem C1_override_amended :
    (∀ (hc : Bool) (i : Nat) (r : Row) (d : RagExcel.Document),
        RagExcel.buildDocument hc i r = some d →
        d.metadata.answer =
          overridePolicySpec (r.status.getD 0)
            (if hc then r.corrected.getD "" else "") (r.answer.getD "")) ∧
    (∀ (i : Nat) (r : Row) (p : Excel2QAjson.QAPairJson),
        Excel2QAjson.extract_qa_pair true i r = some p →
        p.answer =
          match r.corrected with
          | some c =>
              if strip c ≠ "" then strip c else strip (r.answer.getD "")
          | none => strip (r.answer.getD "")) := by
  constructor
  · intro hc i r d h
    unfold RagExcel.buildDocument at h
    simp only [] at h
    split at h
    · simp at h
    · rw [Option.some.injEq] at h
      subst h
      dsimp only
      unfold overridePolicySpec
      exact strip_ite _ _ _
  · intro i r p h
    unfold Excel2QAjson.extract_qa_pair at h
    simp only [] at h
    split at h
    · simp at h
    · rw [Option.some.injEq] at h
      subst h
      dsimp only
      cases hc : r.corrected with
      | none => simp [Excel2QAjson.effective_answer, hc]
      | some c =>
          simp only [Excel2QAjson.effective_answer, hc, if_true]
          split
          · exact strip_idem c
          · rfl

/-- Claim C1 witness: the amended theorem applied to a reviewed row with
status 1 and corrected answer " c " (builder side) and to a status-0 row
(extractor side). -/
theorem C1_override_amended_witness :
    (RagExcel.buildDocument true 0
        { question := some "q", answer := some "a", status := some 1,
          corrected := some " c " }
      = some { page_content := "Q: q\nA: c"
               metadata := { row_index := 0, question := "q", answer := "c",
                             status := 1, has_correction := true } })
    ∧ ("c" : String)
        = overridePolicySpec ((some (1 : Int)).getD 0)
            (if true then (some " c " : Option String).getD "" else "")
            ((some "a" : Option String).getD "") := by
  constructor
  · decide
  · exact C1_override_amended.1 true 0
      { question := some "q", answer := some "a", status := some 1,
        corrected := some " c " }
      { page_content := "Q: q\nA: c"
        metadata := { row_index := 0, question := "q", answer := "c",
                      status := 1, has_correction := true } } (by decide)

/-- Claim C2, counterexample: the row with question "  " and answer "无"
yields no record in the corpus builder, but the QA-JSON extractor, whose
skip condition requires question AND answer to be empty, emits a record
with an empty question for it — contradicting the claim that the row
yields no record in both converters. -/
theorem C2_counterexample :
    RagExcel.buildDocuments false
        [{ question := some "  ", answer := some "无", status := none,
           corrected := none }] = []
    ∧ Excel2QAjson.extract_qa_pairs false
        [{ question := some "  ", answer := some "无", status := none,
           corrected := none }]
      = [{ id := 1, question := "", answer := "无",
           metadata := { row_index := 1, question_length := 0,
                         answer_length := 1,
                         used_corrected_answer := false } }] := by
  exact ⟨by decide, by decide⟩

/-- Claim C2 (amended): the corpus builder drops a row exactly when the
stripped question OR the stripped original answer is empty; the QA-JSON
extractor drops a row only when the stripped question AND the stripped
(possibly corrected) answer are BOTH empty, so a row with an empty
question but non-empty answer is still emitted there. -/
theorem C2_row_filter_amended :
    (∀ (hc : Bool) (i : Nat) (r : Row),
        (RagExcel.buildDocument hc i r).isSome = true ↔
          (strip (r.question.getD "") ≠ "" ∧ strip (r.answer.getD "") ≠ "")) ∧
    (∀ (hc : Bool) (i : Nat) (r : Row),
        (Excel2QAjson.extract_qa_pair hc i r).isSome = true ↔
          (strip (r.question.getD "") ≠ "" ∨
           strip (Excel2QAjson.effective_answer hc r) ≠ "")) := by
  constructor
  · intro hc i r
    unfold RagExcel.buildDocument
    dsimp only
    by_cases hcond :
        strip (r.question.getD "") = "" ∨ strip (r.answer.getD "") = ""
    · rw [if_pos hcond]
      simp only [Option.isSome_none, Bool.false_eq_true, false_iff]
      tauto
    · rw [if_neg hcond]
      simp only [Option.isSome_some, true_iff]
      tauto
  · intro hc i r
    unfold Excel2QAjson.extract_qa_pair
    dsimp only
    by_cases hcond :
        strip (r.question.getD "") = "" ∧
          strip (Excel2QAjson.effective_answer hc r) = ""
    · rw [if_pos hcond]
      simp only [Option.isSome_none, Bool.false_eq_true, false_iff]
      tauto
    · rw [if_neg hcond]
      simp only [Option.isSome_some, true_iff]
      tauto

/-- Claim C6, counterexample: a spreadsheet with exactly 2 columns makes
the corpus builder's positional resolution fail (it reads
`df.columns[2]` unconditionally), although the claim promises success
for every input with at least 2 columns. -/
theorem C6_counterexample :
    (["问题", "答案"] : List String).length = 2 ∧
    RagExcel.resolveColumns ["问题", "答案"]
      = Except.error "Error reading Excel file: index out of bounds" :=
  ⟨rfl, rfl⟩

/-- Claim C6 (amended): the corpus builder's positional resolution needs
at least 3 columns (question, answer and status are mandatory; the
corrected-answer column at position 3 is optional), failing on fewer;
the 2-column minimum of the claim is the QA-JSON extractor's fallback
rule, which succeeds exactly when at least 2 columns exist. -/
theorem C6_min_columns_amended :
    ∀ cols : List String,
      ((RagExcel.resolveColumns cols).isOk = true ↔ 3 ≤ cols.length) ∧
      ((Excel2QAjson.fallbackColumns cols).isSome = true ↔ 2 ≤ cols.length) := by
  intro cols
  rcases cols with _ | ⟨a, _ | ⟨b, _ | ⟨c, t⟩⟩⟩ <;>
    simp [RagExcel.resolveColumns, Excel2QAjson.fallbackColumns,
      Except.isOk, Except.toBool]

/-- Claim C4 (confirmed): both batch pipelines write exactly one output
record per submitted question, however many generation calls or item
tasks fail: the written log always has as many records as questions. -/
theorem C4_fanout_totality :
    ∀ (gen : String → Except String String) (taskErr : Nat → Option String)
      (qa_pairs : List QAPair),
      (Basellm.process_all_questions gen taskErr qa_pairs).length
          = qa_pairs.length ∧
      (Rag.process_qa_pairs gen qa_pairs).length = qa_pairs.length := by
  intro gen taskErr qa_pairs
  constructor
  · unfold Basellm.process_all_questions
    split
    next h => rw [List.isEmpty_iff] at h; rw [h]; rfl
    next h => simp
  · simp [Rag.process_qa_pairs]

/-- Claim C8 (confirmed): when the persistent directory exists the
builder run performs no build step and only reports that the store
exists; existence is the sole condition (the run is a function of it
alone, and reporting happens exactly when the directory exists); two
consecutive runs write the store at most once. -/
theorem C8_build_idempotent :
    ∀ dirExists : Bool,
      ((RagExcel.run_builder dirExists).1
          = [RagExcel.BuildStep.reportAlreadyBuilt] ↔ dirExists = true) ∧
      (RagExcel.run_builder ((RagExcel.run_builder dirExists).2)).1
          = [RagExcel.BuildStep.reportAlreadyBuilt] ∧
      RagExcel.countBuilds ((RagExcel.run_builder dirExists).1) +
          RagExcel.countBuilds
            ((RagExcel.run_builder ((RagExcel.run_builder dirExists).2)).1)
        ≤ 1 := by
  intro dirExists
  cases dirExists <;> exact ⟨by decide, by decide, by decide⟩

/-- Claim C3 (code bug), evaluation at the failing input: in a two-item
batch where item 0's task raises "boom", the plain pipeline's error
branch writes a record carrying the LAST submitted pair's question "q2"
and answer "a2" (the loop variable `qa_pair` is stale after the
submission loop), instead of the failed item's own pair ("q1", "a1"). -/
theorem C3_code_eval :
    Basellm.process_all_questions (fun q => Except.ok ("R-" ++ q))
        (fun i => if i = 0 then some "boom" else none)
        [{ question := "q1", answer := "a1" },
         { question := "q2", answer := "a2" }]
      = [{ user_input := "q2", response := "Error: boom",
           retrieved_contexts := "a2" },
         { user_input := "q2", response := "R-q2",
           retrieved_contexts := "a2" }]
    ∧ ("q2" : String) ≠ "q1" := by
  exact ⟨by decide, by decide⟩

/-- Claim C5, counterexample: in the retrieval-augmented pipeline a
failed generation call produces the response "处理出错: boom", which does
not begin with the prefix "Error: " required by the claim. -/
theorem C5_counterexample :
    Rag.process_qa_pairs (fun _ => Except.error "boom")
        [{ question := "q1", answer := "a1" }]
      = [{ user_input := "q1", response := "处理出错: boom",
           retrieved_contexts := "a1" }]
    ∧ "Error: ".data.isPrefixOf "处理出错: boom".data = false := by
  exact ⟨by decide, by decide⟩

/-- Claim C5 (amended): a failed generation call still yields a record
for its question; in the plain pipeline the response is prefixed
"Error: ", while the retrieval-augmented pipeline's per-item error
branch prefixes "处理出错: " instead, so failed items are marked
differently in the two pipelines but never dropped. -/
theorem C5_error_marker_amended :
    ∀ (gen : String → Except String String) (taskErr : Nat → Option String)
      (qa_pairs : List QAPair) (i : Nat) (p : QAPair) (e : String),
      qa_pairs.get? i = some p → gen p.question = Except.error e →
      (Rag.process_qa_pairs gen qa_pairs).get? i
          = some { user_input := p.question, response := "处理出错: " ++ e,
                   retrieved_contexts := p.answer } ∧
      (taskErr i = none →
        (Basellm.process_all_questions gen taskErr qa_pairs).get? i
          = some { user_input := p.question, response := "Error: " ++ e,
                   retrieved_contexts := p.answer }) := by
  intro gen taskErr qa_pairs i p e hget hgen
  constructor
  · unfold Rag.process_qa_pairs
    rw [List.get?_map, hget]
    simp [hgen]
  · intro htask
    unfold Basellm.process_all_questions
    have hne : qa_pairs.isEmpty = false := by
      cases qa_pairs
      · simp at hget
      · rfl
    rw [if_neg (by simp [hne])]
    rw [List.get?_map, List.get?_enum, hget]
    simp [Basellm.process_single_question, Basellm.get_llm_response, hgen,
      htask]

/-- Claim C5 witness: the amended theorem applied to a one-item batch
whose generation call fails with "boom". -/
theorem C5_error_marker_amended_witness :
    (([{ question := "q1", answer := "a1" }] : List QAPair).get? 0
        = some { question := "q1", answer := "a1" }) ∧
    ((fun _ : String => (Except.error "boom" : Except String String)) "q1"
        = Except.error "boom") ∧
    ((Rag.process_qa_pairs (fun _ => Except.error "boom")
          [{ question := "q1", answer := "a1" }]).get? 0
        = some { user_input := "q1", response := "处理出错: " ++ "boom",
                 retrieved_contexts := "a1" } ∧
      ((fun _ : Nat => (none : Option String)) 0 = none →
        (Basellm.process_all_questions (fun _ => Except.error "boom")
            (fun _ => none) [{ question := "q1", answer := "a1" }]).get? 0
          = some { user_input := "q1", response := "Error: " ++ "boom",
                   retrieved_contexts := "a1" })) :=
  ⟨by decide, rfl,
   C5_error_marker_amended (fun _ => Except.error "boom") (fun _ => none)
     [{ question := "q1", answer := "a1" }] 0
     { question := "q1", answer := "a1" } "boom" (by decide) rfl⟩

/-- Claim C7 (confirmed): the record built for a question carries the
question itself as `user_input`, the caller-supplied ground-truth answer
as `retrieved_contexts` (never the retrieved chunks), and the generated
answer verbatim as `response` when generation succeeds — in both the
plain pipeline's record builder and the RAG pipeline's success branch. -/
theorem C7_record_fields :
    ∀ (gen : String → Except String String) (p : QAPair),
      ((Basellm.process_single_question gen p).user_input = p.question ∧
       (Basellm.process_single_question gen p).retrieved_contexts = p.answer ∧
       ∀ a, gen p.question = Except.ok a →
         (Basellm.process_single_question gen p).response = a) ∧
      (∀ (qa_pairs : List QAPair) (i : Nat) (a : String),
        qa_pairs.get? i = some p → gen p.question = Except.ok a →
        (Rag.process_qa_pairs gen qa_pairs).get? i
          = some { user_input := p.question, response := a,
                   retrieved_contexts := p.answer }) := by
  intro gen p
  refine ⟨⟨rfl, rfl, ?_⟩, ?_⟩
  · intro a ha
    unfold Basellm.process_single_question Basellm.get_llm_response
    rw [ha]
  · intro qa_pairs i a hget hgen
    unfold Rag.process_qa_pairs
    rw [List.get?_map, hget]
    simp [hgen]

/-- Claim C7 witness: the field-semantics theorem applied to a one-item
batch whose generation call succeeds. -/
theorem C7_record_fields_witness :
    ((fun q : String => (Except.ok ("R-" ++ q) : Except String String)) "q1"
        = Except.ok "R-q1") ∧
    (([{ question := "q1", answer := "a1" }] : List QAPair).get? 0
        = some { question := "q1", answer := "a1" }) ∧
    (Basellm.process_single_question (fun q => Except.ok ("R-" ++ q))
        { question := "q1", answer := "a1" }).response = "R-q1" ∧
    (Rag.process_qa_pairs (fun q => Except.ok ("R-" ++ q))
        [{ question := "q1", answer := "a1" }]).get? 0
      = some { user_input := "q1", response := "R-q1",
               retrieved_contexts := "a1" } :=
  ⟨rfl, by decide,
   (C7_record_fields (fun q => Except.ok ("R-" ++ q))
       { question := "q1", answer := "a1" }).1.2.2 "R-q1" rfl,
   (C7_record_fields (fun q => Except.ok ("R-" ++ q))
       { question := "q1", answer := "a1" }).2
     [{ question := "q1", answer := "a1" }] 0 "R-q1" (by decide) rfl⟩

theorem splitWindowsAux_length_le (size step : Nat) (hstep : 0 < step) :
    ∀ (fuel : Nat) (cs : List Char), cs.length ≤ fuel →
      ∀ c ∈ RagExcel.splitWindowsAux size step fuel cs, c.length ≤ size := by
  intro fuel
  induction fuel with
  | zero =>
      intro cs hcs c hc
      have hnil : cs = [] := List.eq_nil_of_length_eq_zero (Nat.le_zero.mp hcs)
      subst hnil
      simp [RagExcel.splitWindowsAux] at hc
      simp [hc]
  | succ n ih =>
      intro cs hcs c hc
      by_cases hle : cs.length ≤ size
      · simp [RagExcel.splitWindowsAux, hle] at hc
        rw [hc]
        exact hle
      · simp only [RagExcel.splitWindowsAux, if_neg hle, List.mem_cons] at hc
        rcases hc with hc | hc
        · rw [hc]
          simp [List.length_take]
        · exact ih (cs.drop step) (by simp [List.length_drop]; omega) c hc

theorem splitWindowsAux_head (size step : Nat) :
    ∀ (fuel : Nat) (cs : List Char), cs.length ≤ fuel →
      (RagExcel.splitWindowsAux size step fuel cs).head?
        = some (cs.take size) := by
  intro fuel
  cases fuel with
  | zero =>
      intro cs hcs
      have hnil : cs = [] := List.eq_nil_of_length_eq_zero (Nat.le_zero.mp hcs)
      subst hnil
      simp [RagExcel.splitWindowsAux]
  | succ n =>
      intro cs hcs
      by_cases hle : cs.length ≤ size
      · simp [RagExcel.splitWindowsAux, hle, List.take_of_length_le hle]
      · simp [RagExcel.splitWindowsAux, hle]

theorem splitWindowsAux_consecutive (size step : Nat) (hstep : 0 < step)
    (hss : step ≤ size) :
    ∀ (fuel : Nat) (cs : List Char), cs.length ≤ fuel →
      ∀ (i : Nat) (c₁ c₂ : List Char) (rest : List (List Char)),
        (RagExcel.splitWindowsAux size step fuel cs).drop i
            = c₁ :: c₂ :: rest →
        c₁.drop (c₁.length - (size - step)) = c₂.take (size - step) := by
  intro fuel
  induction fuel with
  | zero =>
      intro cs hcs i c₁ c₂ rest h
      have hnil : cs = [] := List.eq_nil_of_length_eq_zero (Nat.le_zero.mp hcs)
      subst hnil
      have hlen := congrArg List.length h
      simp [RagExcel.splitWindowsAux] at hlen
      omega
  | succ n ih =>
      intro cs hcs i c₁ c₂ rest h
      by_cases hle : cs.length ≤ size
      · rw [show RagExcel.splitWindowsAux size step (n + 1) cs = [cs] from by
            simp [RagExcel.splitWindowsAux, hle]] at h
        have hlen := congrArg List.length h
        simp at hlen
        omega
      · rw [show RagExcel.splitWindowsAux size step (n + 1) cs
              = cs.take size ::
                  RagExcel.splitWindowsAux size step n (cs.drop step) from by
            simp [RagExcel.splitWindowsAux, hle]] at h
        have hfuel : (cs.drop step).length ≤ n := by
          simp [List.length_drop]
          omega
        cases i with
        | zero =>
            rw [List.drop_zero] at h
            injection h with h1 h2
            have hhead := splitWindowsAux_head size step n (cs.drop step) hfuel
            rw [h2] at hhead
            simp only [List.head?_cons, Option.some.injEq] at hhead
            subst h1
            subst hhead
            have hsz : (cs.take size).length = size := by
              simp [List.length_take]
              omega
            rw [hsz]
            have hstep2 : size - (size - step) = step := by omega
            rw [hstep2]
            rw [List.drop_take]
            rw [List.take_take]
            rw [Nat.min_eq_left (Nat.sub_le size step)]
        | succ j =>
            rw [List.drop_succ_cons] at h
            exact ih (cs.drop step) hfuel j c₁ c₂ rest h

/-- Claim C9 (confirmed against the spec-modelled splitter): every chunk
of a formatted record's text has at most `chunk_size` characters, and any
two consecutive chunks of the same record share exactly `chunk_overlap`
characters (the first chunk's suffix equals the next chunk's prefix). -/
theorem C9_chunk_invariant :
    ∀ q a : String,
      (∀ c ∈ RagExcel.split_text (RagExcel.qa_content q a),
          c.data.length ≤ RagExcel.chunk_size) ∧
      (∀ (i : Nat) (c₁ c₂ : String) (rest : List String),
          (RagExcel.split_text (RagExcel.qa_content q a)).drop i
              = c₁ :: c₂ :: rest →
          c₁.data.drop (c₁.data.length - RagExcel.chunk_overlap)
              = c₂.data.take RagExcel.chunk_overlap) := by
  intro q a
  constructor
  · intro c hc
    unfold RagExcel.split_text RagExcel.splitWindows at hc
    rcases List.mem_map.mp hc with ⟨l, hl, rfl⟩
    exact splitWindowsAux_length_le RagExcel.chunk_size
      (RagExcel.chunk_size - RagExcel.chunk_overlap) (by decide) _ _ le_rfl
      l hl
  · intro i c₁ c₂ rest h
    unfold RagExcel.split_text RagExcel.splitWindows at h
    rw [← List.map_drop] at h
    cases hd : (RagExcel.splitWindowsAux RagExcel.chunk_size
        (RagExcel.chunk_size - RagExcel.chunk_overlap)
        (RagExcel.qa_content q a).data.length
        (RagExcel.qa_content q a).data).drop i with
    | nil =>
        rw [hd] at h
        simp at h
    | cons x xs =>
        cases xs with
        | nil =>
            rw [hd] at h
            simp at h
        | cons y ys =>
            rw [hd] at h
            simp only [List.map_cons] at h
            injection h with e1 h2
            injection h2 with e2 _
            subst e1
            subst e2
            have hcons := splitWindowsAux_consecutive RagExcel.chunk_size
              (RagExcel.chunk_size - RagExcel.chunk_overlap) (by decide)
              (by decide) _ _ le_rfl i x y ys hd
            have hconst : RagExcel.chunk_size -
                (RagExcel.chunk_size - RagExcel.chunk_overlap)
                  = RagExcel.chunk_overlap := by decide
            rw [hconst] at hcons
            exact hcons

/-- Claim C9 witness: the invariant applied to a 611-character formatted
record, which splits into two windows sharing their 50-character
boundary. -/
theorem C9_chunk_invariant_witness :
    c9chunk1 ∈ RagExcel.split_text c9text ∧
    (RagExcel.split_text c9text).drop 0 = [c9chunk1, c9chunk2] ∧
    c9chunk1.data.length ≤ RagExcel.chunk_size ∧
    c9chunk1.data.drop (c9chunk1.data.length - RagExcel.chunk_overlap)
      = c9chunk2.data.take RagExcel.chunk_overlap :=
  ⟨by decide, by decide,
   (C9_chunk_invariant (String.mk (List.replicate 600 'x')) "ans").1
     c9chunk1 (by decide),
   (C9_chunk_invariant (String.mk (List.replicate 600 'x')) "ans").2
     0 c9chunk1 c9chunk2 [] (by decide)⟩

/-- Claim C10 (confirmed): the QA-dataset extractor loads at most the
first 200 rows of the spreadsheet, so rows beyond the 200th can never
contribute a QA pair: appending any rows after a 200-row prefix leaves
the extracted dataset unchanged, and the loaded frame has exactly 200
rows. -/
theorem C10_row_cap :
    ∀ (hc : Bool) (rows extra : List Row),
      200 ≤ rows.length →
      Excel2QAjson.extract_qa_pairs hc
          (Excel2QAjson.load_excel_data (rows ++ extra) 200)
        = Excel2QAjson.extract_qa_pairs hc
            (Excel2QAjson.load_excel_data rows 200) ∧
      (Excel2QAjson.load_excel_data (rows ++ extra) 200).length = 200 := by
  intro hc rows extra h
  unfold Excel2QAjson.load_excel_data
  rw [List.take_append_of_le_length h]
  refine ⟨rfl, ?_⟩
  simp [List.length_take]
  omega

/-- Claim C10 witness: the cap theorem applied to 200 copies of a valid
row followed by one extra row. -/
theorem C10_row_cap_witness :
    200 ≤ (List.replicate 200
        ({ question := some "q", answer := some "a", status := none,
           corrected := none } : Row)).length ∧
    (Excel2QAjson.extract_qa_pairs true
        (Excel2QAjson.load_excel_data
          (List.replicate 200
              ({ question := some "q", answer := some "a", status := none,
                 corrected := none } : Row) ++
            [{ question := some "X", answer := some "Y", status := none,
               corrected := none }]) 200)
      = Excel2QAjson.extract_qa_pairs true
          (Excel2QAjson.load_excel_data
            (List.replicate 200
              ({ question := some "q", answer := some "a", status := none,
                 corrected := none } : Row)) 200) ∧
     (Excel2QAjson.load_excel_data
        (List.replicate 200
            ({ question := some "q", answer := some "a", status := none,
               corrected := none } : Row) ++
          [{ question := some "X", answer := some "Y", status := none,
             corrected := none }]) 200).length = 200) :=
  ⟨by simp,
   C10_row_cap true
     (List.replicate 200
       { question := some "q", answer := some "a", status := none,
         corrected := none })
     [{ question := some "X", answer := some "Y", status := none,
        corrected := none }] (by simp)⟩

end HuaAgent
